import Mathlib

/-!
Verification development for the ai-urllib4 connection-pool and adaptive
retry core.  The definitions below are a shallow embedding of the Python
source files connectionpool.py, poolmanager.py, ai.py and smart_client.py:
pure functions become Lean functions, mutation becomes explicit state
passing, exceptions become an Except error type, and the float fields
(avg_delay, elapsed) are modelled over the rationals with the exact
coefficients written in the source (0.9, 0.1, 1.2, 0.5).
-/

namespace AiUrllib4

/-! ### Sync connection pool (connectionpool.py, HTTPConnectionPool) -/

/-- A connection handle, identified by the order of its creation
(ConnectionCls instances in the source are distinct objects). -/
structure Conn where
  id : Nat
deriving DecidableEq, Repr

/-- Errors raised by the pool layer (exceptions ClosedPoolError and
EmptyPoolError in the source). -/
inductive PoolErr where
  | closedPool
  | emptyPool
deriving DecidableEq, Repr

/-- State of HTTPConnectionPool: maxsize, block flag, the live-connection
counter num_connections, the idle list self.pool, the closed flag, and a
counter supplying fresh connection identities. -/
structure HTTPConnectionPool where
  maxsize : Nat
  blocking : Bool
  num_connections : Nat
  pool : List Conn
  closed : Bool
  nextId : Nat
deriving DecidableEq, Repr

/-- HTTPConnectionPool.__init__ with the given maxsize and block flag:
num_connections = 0, pool = [], closed = False. -/
def mkHTTPConnectionPool (maxsize : Nat) (blocking : Bool) : HTTPConnectionPool :=
  { maxsize := maxsize, blocking := blocking, num_connections := 0,
    pool := [], closed := false, nextId := 0 }

/-- HTTPConnectionPool._get_conn.  Mirrors the source exactly: if closed,
raise ClosedPoolError; if the idle list is empty, the counter has reached
maxsize and block is False, raise EmptyPoolError; otherwise unconditionally
create a brand-new connection and increment num_connections (the source
never pops self.pool). -/
def _get_conn (s : HTTPConnectionPool) : Except PoolErr (Conn × HTTPConnectionPool) :=
  if s.closed then
    .error .closedPool
  else if s.pool.isEmpty ∧ s.maxsize ≤ s.num_connections ∧ s.blocking = false then
    .error .emptyPool
  else
    .ok (⟨s.nextId⟩,
      { s with num_connections := s.num_connections + 1, nextId := s.nextId + 1 })

/-- HTTPConnectionPool._put_conn: if the pool is closed the handle is
discarded (closed), otherwise it is appended to the idle list. -/
def _put_conn (s : HTTPConnectionPool) (c : Conn) : HTTPConnectionPool :=
  if s.closed then s else { s with pool := s.pool ++ [c] }

deriving instance DecidableEq for Except

/-- One caller-visible pool operation: an acquire or a release of a handle. -/
inductive PoolOp where
  | get
  | put (c : Conn)
deriving DecidableEq, Repr

/-- Run a finite sequence of _get_conn / _put_conn operations; a failed
acquire leaves the state unchanged. -/
def runPoolOps (s : HTTPConnectionPool) : List PoolOp → HTTPConnectionPool
  | [] => s
  | PoolOp.get :: ops =>
      match _get_conn s with
      | .ok (_, s') => runPoolOps s' ops
      | .error _ => runPoolOps s ops
  | PoolOp.put c :: ops => runPoolOps (_put_conn s c) ops

/-! ### Pool registry (poolmanager.py, PoolManager) -/

/-- A registry destination key: (scheme, netloc), as computed by
connection_from_url from the parsed URL. -/
def PMKey := String × String
deriving instance DecidableEq, Repr for PMKey

/-- State of PoolManager: the bound num_pools, the default pool parameters
(connection_pool_kw, reduced to the fields the registry claims need), and
the pools mapping modelled as an insertion-ordered association list, the
semantics of a Python dict: a new key is appended at the end and
next(iter(pools)) is the head. -/
structure PoolManager where
  num_pools : Nat
  pool_maxsize : Nat
  pool_blocking : Bool
  pools : List (PMKey × HTTPConnectionPool)
deriving DecidableEq, Repr

/-- PoolManager.__init__ with an empty registry. -/
def mkPoolManager (num_pools pool_maxsize : Nat) (pool_blocking : Bool) : PoolManager :=
  { num_pools := num_pools, pool_maxsize := pool_maxsize,
    pool_blocking := pool_blocking, pools := [] }

/-- PoolManager.connection_from_url: if the key is cached return its pool;
otherwise, when the registry is at or above capacity, evict the first entry
in iteration order (the oldest inserted), then construct and insert a fresh
pool built from the default parameters. -/
def PoolManager.connection_from_url (m : PoolManager) (key : PMKey) :
    HTTPConnectionPool × PoolManager :=
  match m.pools.lookup key with
  | some p => (p, m)
  | none =>
      let pools1 := if m.num_pools ≤ m.pools.length then m.pools.tail else m.pools
      let newPool := mkHTTPConnectionPool m.pool_maxsize m.pool_blocking
      (newPool, { m with pools := pools1 ++ [(key, newPool)] })

/-- Run a sequence of connection_from_url lookups, threading the registry
state. -/
def runLookups (m : PoolManager) : List PMKey → PoolManager
  | [] => m
  | k :: ks => runLookups (m.connection_from_url k).2 ks

/-! ### Response classifier and insights store (ai.py, AISmartConfig) -/

/-- The four response categories produced by classify_response. -/
inductive Classification where
  | success
  | challenge
  | blocked
  | error
deriving DecidableEq, Repr

/-- A response as seen by the classifier: the status code and the body
bytes, modelled as a string (the three markers are ASCII). -/
structure Response where
  status : Nat
  body : String
deriving DecidableEq, Repr

/-- ASCII lowercasing of the body characters, as bytes.lower does in the
source (String.toLower is the same map, character by character). -/
def lowerChars (l : List Char) : List Char := l.map Char.toLower

/-- The body sniff of classify_response: the lowercased body contains one
of the fixed markers cloudflare, captcha or turnstile. -/
def containsMarker (body : String) : Bool :=
  decide ("cloudflare".data <:+: lowerChars body.data) ||
  decide ("captcha".data <:+: lowerChars body.data) ||
  decide ("turnstile".data <:+: lowerChars body.data)

/-- AISmartConfig.classify_response: 2xx is success; 403 and 429 are
challenge when a marker occurs in the lowercased body and blocked
otherwise; everything else is error. -/
def classify_response (r : Response) : Classification :=
  if 200 ≤ r.status ∧ r.status < 300 then
    .success
  else if r.status = 403 ∨ r.status = 429 then
    (if containsMarker r.body then .challenge else .blocked)
  else
    .error

/-- One entry of the bounded per-domain history. -/
structure HistEntry where
  status : Nat
  classification : Classification
  elapsed : ℚ
deriving DecidableEq, Repr

/-- AIInsights: the per-domain rolling statistics.  avg_delay starts at
0.5 seconds. -/
structure AIInsights where
  success_count : Nat
  failure_count : Nat
  last_status : Option Nat
  avg_delay : ℚ
  total_requests : Nat
  history : List HistEntry
deriving DecidableEq, Repr

/-- AIInsights.__init__. -/
def AIInsights.init : AIInsights :=
  { success_count := 0, failure_count := 0, last_status := none,
    avg_delay := 1/2, total_requests := 0, history := [] }

/-- The per-insights body of AISmartConfig.learn_from_response: bump
total_requests and last_status, classify, update the counters and the
exponential moving average, append a history entry and drop the oldest
once the length exceeds 50. -/
def learnStep (i : AIInsights) (r : Response) (elapsed : ℚ) : AIInsights :=
  let classification := classify_response r
  let i1 := { i with total_requests := i.total_requests + 1, last_status := some r.status }
  let i2 :=
    if classification = .success then
      { i1 with success_count := i1.success_count + 1,
                avg_delay := i1.avg_delay * (9/10) + elapsed * (1/10) }
    else
      { i1 with failure_count := i1.failure_count + 1,
                avg_delay := i1.avg_delay * (12/10) }
  let h := i2.history ++ [⟨r.status, classification, elapsed⟩]
  { i2 with history := if 50 < h.length then h.tail else h }

/-- The _insights mapping of AISmartConfig: each domain has its own
AIInsights record, created lazily with AIInsights.init on first access. -/
def Store := String → AIInsights

/-- A fresh AISmartConfig insights store. -/
def Store.init : Store := fun _ => AIInsights.init

/-- AISmartConfig.learn_from_response, acting on the store at the domain
extracted from the url. -/
def learn_from_response (s : Store) (domain : String) (r : Response) (elapsed : ℚ) : Store :=
  fun d => if d = domain then learnStep (s domain) r elapsed else s d

/-- The success_rate field of AISmartConfig.get_domain_insights:
success_count / max(1, total_requests), over the rationals. -/
def success_rate (i : AIInsights) : ℚ :=
  (i.success_count : ℚ) / ((max 1 i.total_requests : Nat) : ℚ)

/-- AISmartConfig.get_domain_insights: success rate, average delay and
total request count of the domain. -/
def get_domain_insights (s : Store) (domain : String) : ℚ × ℚ × Nat :=
  (success_rate (s domain), (s domain).avg_delay, (s domain).total_requests)

/-- The dictionary returned by AISmartConfig.suggest_retry_strategy,
with a field per key; keys absent from the Python dict are none. -/
structure RetryDecision where
  retry : Bool
  delay : Option Nat
  rotate_ua : Option Bool
  reason : Option String
deriving DecidableEq, Repr

/-- AISmartConfig.suggest_retry_strategy: classify the response, then
challenge retries after 5 seconds with UA rotation, blocked retries after
10 seconds with UA rotation, and anything else does not retry. -/
def suggest_retry_strategy (r : Response) : RetryDecision :=
  let classification := classify_response r
  if classification = .challenge then
    { retry := true, delay := some 5, rotate_ua := some true,
      reason := some "Bot challenge detected" }
  else if classification = .blocked then
    { retry := true, delay := some 10, rotate_ua := some true,
      reason := some "IP or UA block" }
  else
    { retry := false, delay := none, rotate_ua := none, reason := none }

/-! ### Request orchestrator (smart_client.py, SmartClient.request)

The transport is abstracted as an oracle giving the response of the n-th
dispatch and the elapsed wall-clock time observed after it; the AI backend
is None (the client is constructed without an api_key), so suggest_headers
returns its baseline dictionary and never consults an LLM. -/

/-- Python dict assignment on an association list: replace the value in
place when the key is present, else append the pair. -/
def dictSet (hs : List (String × String)) (k v : String) : List (String × String) :=
  if hs.any (fun p => p.1 = k) then
    hs.map (fun p => if p.1 = k then (k, v) else p)
  else
    hs ++ [(k, v)]

/-- Python dict.update: apply every assignment of the second dict to the
first, in order. -/
def dictUpdate (base upd : List (String × String)) : List (String × String) :=
  upd.foldl (fun acc p => dictSet acc p.1 p.2) base

/-- The baseline header dictionary built by AISmartConfig.suggest_headers;
with no backend configured it is returned unchanged. -/
def suggest_headers_base : List (String × String) :=
  [("User-Agent", "ai-urllib4/2.1.0 (Smart)"),
   ("Accept", "*/*"),
   ("Accept-Language", "en-US,en;q=0.5")]

/-- The rotated User-Agent written on retry number n. -/
def rotationUA (n : Nat) : String :=
  "ai-urllib4/2.1.0 (Retry-" ++ toString n ++ ")"

/-- The keyword arguments of SmartClient.request that the orchestrator
reads and writes: the header dict and the optional timeout. -/
structure RequestKw where
  headers : List (String × String)
  timeout : Option ℚ
deriving DecidableEq, Repr

/-- The two constructor flags of SmartClient that drive request. -/
structure SmartClientCfg where
  ai_optimize : Bool
  learn_from_success : Bool
deriving DecidableEq, Repr

/-- What one call of SmartClient.request produces: the returned response,
the number of dispatches through the parent PoolManager, the updated
insights store and the final keyword arguments. -/
structure LoopResult where
  response : Response
  dispatches : Nat
  store : Store
  kw : RequestKw

/-- The while-True loop of SmartClient.request.  Each iteration dispatches
(response number dispatched of the oracle), learns when learn_from_success
is set, and, when ai_optimize is set, the status is at least 400, the
advisor says retry and attempt < 5, increments attempt, rotates the
User-Agent if asked and loops; otherwise it returns the response. -/
def requestLoop (cfg : SmartClientCfg) (oracle : Nat → Response) (elapsedO : Nat → ℚ)
    (domain : String) (store : Store) (kw : RequestKw)
    (dispatched : Nat) (attempt : Nat) : LoopResult :=
  if cfg.ai_optimize = true ∧ 400 ≤ (oracle dispatched).status then
    if h : (suggest_retry_strategy (oracle dispatched)).retry = true ∧ attempt < 5 then
      requestLoop cfg oracle elapsedO domain
        (if cfg.learn_from_success = true then
          learn_from_response store domain (oracle dispatched) (elapsedO dispatched)
        else store)
        (if (suggest_retry_strategy (oracle dispatched)).rotate_ua = some true then
          { kw with headers := dictSet kw.headers "User-Agent" (rotationUA (attempt + 1)) }
        else kw)
        (dispatched + 1) (attempt + 1)
    else
      { response := oracle dispatched, dispatches := dispatched + 1,
        store :=
          if cfg.learn_from_success = true then
            learn_from_response store domain (oracle dispatched) (elapsedO dispatched)
          else store,
        kw := kw }
  else
    { response := oracle dispatched, dispatches := dispatched + 1,
      store :=
        if cfg.learn_from_success = true then
          learn_from_response store domain (oracle dispatched) (elapsedO dispatched)
        else store,
      kw := kw }
termination_by 5 - attempt
decreasing_by
  omega

/-- SmartClient.request: when ai_optimize is set, merge the suggested
headers under the caller headers (caller wins) and default the timeout to
30 seconds, then run the retry loop from attempt 0. -/
def smartRequest (cfg : SmartClientCfg) (oracle : Nat → Response) (elapsedO : Nat → ℚ)
    (domain : String) (store : Store) (kw : RequestKw) : LoopResult :=
  let kw1 :=
    if cfg.ai_optimize then
      let merged := dictUpdate suggest_headers_base kw.headers
      let kw' := { kw with headers := merged }
      if kw'.timeout = none then { kw' with timeout := some 30 } else kw'
    else kw
  requestLoop cfg oracle elapsedO domain store kw1 0 0

/-- Run a sequence of learn_from_response observations on the insights
store, threading state; each observation is a (domain, response, elapsed)
triple. -/
def runLearn (s : Store) : List (String × Response × ℚ) → Store
  | [] => s
  | (dom, r, t) :: obs => runLearn (learn_from_response s dom r t) obs

/-! ### Theorems -/

/-! #### Shared helper lemmas -/

/-- connection_from_url never changes the num_pools bound. -/
theorem connection_from_url_num_pools (m : PoolManager) (k : PMKey) :
    (m.connection_from_url k).2.num_pools = m.num_pools := by
  unfold PoolManager.connection_from_url
  cases h : m.pools.lookup k <;> simp [h]

/-- One connection_from_url step keeps the registry size within the bound
when it started within the bound and the bound is at least 1. -/
theorem connection_from_url_length_le (m : PoolManager) (k : PMKey)
    (hN : 1 ≤ m.num_pools) (h : m.pools.length ≤ m.num_pools) :
    (m.connection_from_url k).2.pools.length ≤ m.num_pools := by
  unfold PoolManager.connection_from_url
  cases hl : m.pools.lookup k
  · by_cases hc : m.num_pools ≤ m.pools.length
    · simp [hl, hc, List.length_tail]
      omega
    · simp [hl, hc]
      omega
  · simp [hl, h]

/-- The registry size bound is preserved along every lookup sequence. -/
theorem runLookups_length_le (ks : List PMKey) : ∀ m : PoolManager,
    1 ≤ m.num_pools → m.pools.length ≤ m.num_pools →
    (runLookups m ks).pools.length ≤ (runLookups m ks).num_pools ∧
    (runLookups m ks).num_pools = m.num_pools := by
  induction ks with
  | nil => exact fun m hN h => ⟨h, rfl⟩
  | cons k ks ih =>
      intro m hN h
      have hnp := connection_from_url_num_pools m k
      have hlen := connection_from_url_length_le m k hN h
      have := ih (m.connection_from_url k).2 (by omega) (by omega)
      simpa [runLookups, hnp] using this

/-- A blocked classification can only come from status 403 or 429. -/
theorem classify_blocked_status (r : Response)
    (h : classify_response r = .blocked) : r.status = 403 ∨ r.status = 429 := by
  unfold classify_response at h
  by_cases h1 : 200 ≤ r.status ∧ r.status < 300
  · simp [h1] at h
  · by_cases h2 : r.status = 403 ∨ r.status = 429
    · exact h2
    · simp [h1, h2] at h

/-- The advisor on a blocked response: retry after 10 seconds, rotating
the User-Agent. -/
theorem suggest_retry_blocked (r : Response) (h : classify_response r = .blocked) :
    suggest_retry_strategy r =
      { retry := true, delay := some 10, rotate_ua := some true,
        reason := some "IP or UA block" } := by
  simp [suggest_retry_strategy, h]

/-- C1 (code evaluation): on a pool built with maxsize = 1, block = False,
the operation sequence acquire, release, acquire drives num_connections to
2, exceeding maxsize: the source never pops the idle list and increments
the counter unconditionally. -/
theorem c1_counter_exceeds_maxsize :
    (runPoolOps (mkHTTPConnectionPool 1 false)
        [.get, .put ⟨0⟩, .get]).num_connections = 2 ∧
    ¬ (runPoolOps (mkHTTPConnectionPool 1 false)
        [.get, .put ⟨0⟩, .get]).num_connections ≤ (mkHTTPConnectionPool 1 false).maxsize := by
  decide

/-- C3 (code evaluation): on an open pool whose idle list holds the handle
with id 7, _get_conn does not pop it: it returns a brand-new connection
(id 0) and leaves the idle handle in place. -/
theorem c3_get_conn_ignores_idle :
    _get_conn (_put_conn (mkHTTPConnectionPool 2 false) ⟨7⟩) =
      .ok (⟨0⟩, { maxsize := 2, blocking := false, num_connections := 1,
                  pool := [⟨7⟩], closed := false, nextId := 1 }) ∧
    (_put_conn (mkHTTPConnectionPool 2 false) ⟨7⟩).pool = [⟨7⟩] ∧
    (⟨0⟩ : Conn) ∉ (_put_conn (mkHTTPConnectionPool 2 false) ⟨7⟩).pool := by
  decide

/-- C4: on an open pool with block = False, an empty idle list and the
counter at or above maxsize, _get_conn fails with EmptyPoolError
immediately, creating no connection. -/
theorem c4_failfast_exhausted (s : HTTPConnectionPool)
    (hclosed : s.closed = false) (hblk : s.blocking = false)
    (hidle : s.pool = []) (hfull : s.maxsize ≤ s.num_connections) :
    _get_conn s = .error .emptyPool := by
  simp [_get_conn, hclosed, hblk, hidle, hfull]

/-- C4 witness: a concrete exhausted fail-fast pool. -/
theorem c4_failfast_exhausted_witness :
    _get_conn { maxsize := 1, blocking := false, num_connections := 1,
                pool := [], closed := false, nextId := 1 } = .error .emptyPool :=
  c4_failfast_exhausted _ rfl rfl rfl (by decide)

/-- C5: a registry with num_pools = N at least 1 never holds more than N
entries along any lookup sequence from a fresh manager, and a lookup that
inserts an (N+1)-th distinct destination into a full registry removes
exactly one existing entry (the first in iteration order) before
inserting, leaving exactly N entries. -/
theorem c5_registry_bound (N maxsz : Nat) (blk : Bool) (hN : 1 ≤ N) :
    (∀ ks : List PMKey,
      (runLookups (mkPoolManager N maxsz blk) ks).pools.length ≤ N) ∧
    (∀ (m : PoolManager) (key : PMKey), m.num_pools = N → m.pools.length = N →
      m.pools.lookup key = none →
      (m.connection_from_url key).2.pools.length = N ∧
      (m.connection_from_url key).2.pools =
        m.pools.tail ++ [(key, mkHTTPConnectionPool m.pool_maxsize m.pool_blocking)]) := by
  constructor
  · intro ks
    have h := runLookups_length_le ks (mkPoolManager N maxsz blk) hN (by simp [mkPoolManager])
    have : (runLookups (mkPoolManager N maxsz blk) ks).num_pools = N := by
      simpa [mkPoolManager] using h.2
    omega
  · intro m key hnp hlen hlook
    unfold PoolManager.connection_from_url
    have hc : m.num_pools ≤ m.pools.length := by omega
    simp [hlook, hc, List.length_tail]
    omega

/-- C5 witness: with bound 2, three distinct destinations stay within the
bound, and the step clause applies to the concrete full registry reached
after the first two lookups. -/
theorem c5_registry_bound_witness :
    (runLookups (mkPoolManager 2 1 false)
      [("http", "a.example"), ("http", "b.example"), ("http", "c.example")]).pools.length ≤ 2 ∧
    (runLookups (mkPoolManager 2 1 false)
      [("http", "a.example"), ("http", "b.example")]).pools.length = 2 := by
  refine ⟨(c5_registry_bound 2 1 false (by decide)).1 _, ?_⟩
  decide

/-- C6: classify_response is a total deterministic function of status and
body: 2xx is success; 403 and 429 with a marker in the lowercased body is
challenge; 403 and 429 without a marker is blocked; every other status is
error; in particular 200 with any body is success, 403 with body
cloudflare challenge is challenge, 403 with body plain forbidden is
blocked, and 500 with any body is error. -/
theorem c6_classifier (r : Response) :
    ((200 ≤ r.status ∧ r.status < 300) → classify_response r = .success) ∧
    ((r.status = 403 ∨ r.status = 429) → containsMarker r.body = true →
      classify_response r = .challenge) ∧
    ((r.status = 403 ∨ r.status = 429) → containsMarker r.body = false →
      classify_response r = .blocked) ∧
    (¬ (200 ≤ r.status ∧ r.status < 300) → ¬ (r.status = 403 ∨ r.status = 429) →
      classify_response r = .error) ∧
    classify_response ⟨200, r.body⟩ = .success ∧
    classify_response ⟨403, "cloudflare challenge"⟩ = .challenge ∧
    classify_response ⟨403, "plain forbidden"⟩ = .blocked ∧
    classify_response ⟨500, r.body⟩ = .error := by
  refine ⟨?_, ?_, ?_, ?_, ?_, by decide, by decide, ?_⟩
  · intro h
    simp [classify_response, h]
  · intro h hm
    have h2 : ¬ (200 ≤ r.status ∧ r.status < 300) := by omega
    simp [classify_response, h, h2, hm]
  · intro h hm
    have h2 : ¬ (200 ≤ r.status ∧ r.status < 300) := by omega
    simp [classify_response, h, h2, hm]
  · intro h1 h2
    simp [classify_response, h1, h2]
  · simp [classify_response]
  · simp [classify_response]

/-- C6 witness: the theorem applied at concrete inputs, one per clause,
including a case-insensitive marker. -/
theorem c6_classifier_witness :
    classify_response ⟨204, "anything"⟩ = .success ∧
    classify_response ⟨429, "solve this CAPTCHA"⟩ = .challenge ∧
    classify_response ⟨429, "rate limited"⟩ = .blocked ∧
    classify_response ⟨500, "anything"⟩ = .error :=
  ⟨(c6_classifier ⟨204, "anything"⟩).1 (by decide),
   (c6_classifier ⟨429, "solve this CAPTCHA"⟩).2.1 (Or.inr rfl) (by decide),
   (c6_classifier ⟨429, "rate limited"⟩).2.2.1 (Or.inr rfl) (by decide),
   (c6_classifier ⟨500, "anything"⟩).2.2.2.1 (by decide) (by decide)⟩

/-- C7: one learnStep bumps total_requests by one, records the status,
appends one history entry keeping the length at most 50 by dropping the
oldest entry, and on success bumps success_count and applies the 0.9/0.1
moving average while otherwise bumping failure_count and scaling avg_delay
by 1.2 independently of elapsed. -/
theorem c7_learn_step (i : AIInsights) (r : Response) (elapsed : ℚ)
    (h50 : i.history.length ≤ 50) :
    (learnStep i r elapsed).total_requests = i.total_requests + 1 ∧
    (learnStep i r elapsed).last_status = some r.status ∧
    (learnStep i r elapsed).history.length ≤ 50 ∧
    (i.history.length ≤ 49 →
      (learnStep i r elapsed).history =
        i.history ++ [⟨r.status, classify_response r, elapsed⟩]) ∧
    (i.history.length = 50 →
      (learnStep i r elapsed).history =
        i.history.tail ++ [⟨r.status, classify_response r, elapsed⟩]) ∧
    (classify_response r = .success →
      (learnStep i r elapsed).success_count = i.success_count + 1 ∧
      (learnStep i r elapsed).failure_count = i.failure_count ∧
      (learnStep i r elapsed).avg_delay = i.avg_delay * (9/10) + elapsed * (1/10)) ∧
    (classify_response r ≠ .success →
      (learnStep i r elapsed).failure_count = i.failure_count + 1 ∧
      (learnStep i r elapsed).success_count = i.success_count ∧
      (learnStep i r elapsed).avg_delay = i.avg_delay * (12/10)) := by
  have hhist : (learnStep i r elapsed).history =
      if 50 < (i.history ++ [(⟨r.status, classify_response r, elapsed⟩ : HistEntry)]).length
      then (i.history ++ [(⟨r.status, classify_response r, elapsed⟩ : HistEntry)]).tail
      else i.history ++ [(⟨r.status, classify_response r, elapsed⟩ : HistEntry)] := by
    by_cases hc : classify_response r = .success <;> simp [learnStep, hc]
  refine ⟨?_, ?_, ?_, ?_, ?_, ?_, ?_⟩
  · by_cases hc : classify_response r = .success <;> simp [learnStep, hc]
  · by_cases hc : classify_response r = .success <;> simp [learnStep, hc]
  · rw [hhist]
    by_cases hl : 50 < (i.history ++ [(⟨r.status, classify_response r, elapsed⟩ : HistEntry)]).length
    · rw [if_pos hl]
      simp only [List.length_tail, List.length_append, List.length_cons, List.length_nil] at *
      omega
    · rw [if_neg hl]
      simp only [List.length_append, List.length_cons, List.length_nil] at *
      omega
  · intro h49
    have hl : ¬ 50 < (i.history ++ [(⟨r.status, classify_response r, elapsed⟩ : HistEntry)]).length := by
      simp only [List.length_append]
      simp
      omega
    rw [hhist, if_neg hl]
  · intro hfull
    have hne : i.history ≠ [] := by
      intro he
      rw [he] at hfull
      simp at hfull
    have hl : 50 < (i.history ++ [(⟨r.status, classify_response r, elapsed⟩ : HistEntry)]).length := by
      simp only [List.length_append]
      simp
      omega
    rw [hhist, if_pos hl]
    exact List.tail_append_singleton_of_ne_nil hne
  · intro hc
    simp [learnStep, hc]
  · intro hc
    simp [learnStep, hc]

/-- C7 witness: from the initial insights (avg_delay 0.5), one success at
status 200 with elapsed 1.5 gives total_requests 1, last_status 200, a
one-entry history, success_count 1 and avg_delay 0.5*0.9 + 1.5*0.1. -/
theorem c7_learn_step_witness :
    (learnStep AIInsights.init ⟨200, ""⟩ (3/2)).total_requests = 0 + 1 ∧
    (learnStep AIInsights.init ⟨200, ""⟩ (3/2)).history =
      [⟨200, classify_response ⟨200, ""⟩, 3/2⟩] ∧
    (learnStep AIInsights.init ⟨200, ""⟩ (3/2)).success_count = 0 + 1 ∧
    (learnStep AIInsights.init ⟨200, ""⟩ (3/2)).avg_delay = (1/2) * (9/10) + (3/2) * (1/10) := by
  have h := c7_learn_step AIInsights.init ⟨200, ""⟩ (3/2) (by decide)
  have hs := h.2.2.2.2.2.1 (by decide)
  exact ⟨h.1, by simpa using h.2.2.2.1 (by decide), hs.1, hs.2.2⟩

/-- C8: the advisor is a function of the classification alone: challenge
gives retry after 5 seconds with UA rotation, blocked gives retry after 10
seconds with UA rotation, success and error do not retry; and the first
response ever seen for a destination with status 429 and a captcha body is
classified challenge and yields the 5-second rotating retry. -/
theorem c8_retry_advisor (r : Response) :
    (classify_response r = .challenge →
      suggest_retry_strategy r =
        { retry := true, delay := some 5, rotate_ua := some true,
          reason := some "Bot challenge detected" }) ∧
    (classify_response r = .blocked →
      suggest_retry_strategy r =
        { retry := true, delay := some 10, rotate_ua := some true,
          reason := some "IP or UA block" }) ∧
    ((classify_response r = .success ∨ classify_response r = .error) →
      (suggest_retry_strategy r).retry = false) ∧
    classify_response ⟨429, "please solve this captcha"⟩ = .challenge ∧
    suggest_retry_strategy ⟨429, "please solve this captcha"⟩ =
      { retry := true, delay := some 5, rotate_ua := some true,
        reason := some "Bot challenge detected" } := by
  refine ⟨?_, suggest_retry_blocked r, ?_, by decide, by decide⟩
  · intro h
    simp [suggest_retry_strategy, h]
  · rintro (h | h) <;> simp [suggest_retry_strategy, h]

/-- C8 witness: the theorem applied at a plain 403 block and a 200
success. -/
theorem c8_retry_advisor_witness :
    suggest_retry_strategy ⟨403, "access denied"⟩ =
      { retry := true, delay := some 10, rotate_ua := some true,
        reason := some "IP or UA block" } ∧
    (suggest_retry_strategy ⟨200, "ok"⟩).retry = false :=
  ⟨(c8_retry_advisor ⟨403, "access denied"⟩).2.1 (by decide),
   (c8_retry_advisor ⟨200, "ok"⟩).2.2.1 (Or.inl (by decide))⟩

/-- One learnStep keeps success_count bounded by total_requests. -/
theorem learnStep_success_le (i : AIInsights) (r : Response) (elapsed : ℚ)
    (h : i.success_count ≤ i.total_requests) :
    (learnStep i r elapsed).success_count ≤ (learnStep i r elapsed).total_requests := by
  by_cases hc : classify_response r = .success <;> simp [learnStep, hc] <;> omega

/-- The per-domain bound success_count ≤ total_requests holds on every
store reached from the initial store by learn_from_response observations. -/
theorem runLearn_success_le (obs : List (String × Response × ℚ)) :
    ∀ s : Store, (∀ d, (s d).success_count ≤ (s d).total_requests) →
    ∀ d, ((runLearn s obs) d).success_count ≤ ((runLearn s obs) d).total_requests := by
  induction obs with
  | nil => exact fun s hs => hs
  | cons o obs ih =>
      intro s hs
      obtain ⟨dom, r, t⟩ := o
      refine ih (learn_from_response s dom r t) ?_
      intro d
      unfold learn_from_response
      by_cases hd : d = dom
      · simp only [hd, if_pos rfl]
        exact learnStep_success_le (s dom) r t (hs dom)
      · simp only [if_neg hd]
        exact hs d

/-- C9: for every observation sequence from a fresh store and every
domain, the success_rate reported by get_domain_insights lies in [0, 1],
and a domain with zero recorded requests gets success_rate 0 with no
division by zero (the denominator is max 1 total_requests). -/
theorem c9_success_rate_bounds (obs : List (String × Response × ℚ)) (d : String) :
    0 ≤ (get_domain_insights (runLearn Store.init obs) d).1 ∧
    (get_domain_insights (runLearn Store.init obs) d).1 ≤ 1 ∧
    (((runLearn Store.init obs) d).total_requests = 0 →
      (get_domain_insights (runLearn Store.init obs) d).1 = 0) := by
  have hinv : ((runLearn Store.init obs) d).success_count ≤
      ((runLearn Store.init obs) d).total_requests :=
    runLearn_success_le obs Store.init (fun _ => by simp [Store.init, AIInsights.init]) d
  have hle : ((runLearn Store.init obs) d).success_count ≤
      max 1 ((runLearn Store.init obs) d).total_requests :=
    le_trans hinv (le_max_right _ _)
  have hpos : (0 : ℚ) < ((max 1 ((runLearn Store.init obs) d).total_requests : Nat) : ℚ) := by
    have h1 : (1 : Nat) ≤ max 1 ((runLearn Store.init obs) d).total_requests := le_max_left _ _
    exact_mod_cast Nat.lt_of_lt_of_le Nat.zero_lt_one h1
  refine ⟨?_, ?_, ?_⟩
  · show (0 : ℚ) ≤ success_rate ((runLearn Store.init obs) d)
    exact div_nonneg (by positivity) (le_of_lt hpos)
  · show success_rate ((runLearn Store.init obs) d) ≤ 1
    unfold success_rate
    rw [div_le_one hpos]
    exact_mod_cast hle
  · intro h0
    have hz : ((runLearn Store.init obs) d).success_count = 0 := by omega
    simp [get_domain_insights, success_rate, hz]

/-- C9 witness: after one successful observation on domain a, the fresh
domain b still has zero requests and success_rate 0, inside [0, 1]. -/
theorem c9_success_rate_bounds_witness :
    0 ≤ (get_domain_insights (runLearn Store.init [("a", ⟨200, ""⟩, 1)]) "b").1 ∧
    (get_domain_insights (runLearn Store.init [("a", ⟨200, ""⟩, 1)]) "b").1 = 0 := by
  have h := c9_success_rate_bounds [("a", ⟨200, ""⟩, 1)] "b"
  exact ⟨h.1, h.2.2 (by decide)⟩

/-- C2 loop analysis: when every response classifies blocked, the loop
starting at attempt a with k = 5 - a retries left performs k + 1 further
dispatches and returns the response of the last one. -/
theorem requestLoop_all_blocked (oracle : Nat → Response)
    (hb : ∀ n, classify_response (oracle n) = .blocked)
    (elapsedO : Nat → ℚ) (domain : String) (lfs : Bool) :
    ∀ (k attempt : Nat), attempt + k = 5 →
    ∀ (store : Store) (kw : RequestKw) (dispatched : Nat),
      (requestLoop ⟨true, lfs⟩ oracle elapsedO domain store kw dispatched attempt).response =
        oracle (dispatched + k) ∧
      (requestLoop ⟨true, lfs⟩ oracle elapsedO domain store kw dispatched attempt).dispatches =
        dispatched + k + 1 := by
  intro k
  induction k with
  | zero =>
      intro attempt ha store kw dispatched
      have h400 : 400 ≤ (oracle dispatched).status := by
        rcases classify_blocked_status _ (hb dispatched) with h | h <;> omega
      have hcond : (⟨true, lfs⟩ : SmartClientCfg).ai_optimize = true ∧
          400 ≤ (oracle dispatched).status := ⟨rfl, h400⟩
      have hstop : ¬ ((suggest_retry_strategy (oracle dispatched)).retry = true ∧ attempt < 5) := by
        intro hcontra
        omega
      rw [requestLoop.eq_def, if_pos hcond, dif_neg hstop]
      exact ⟨rfl, rfl⟩
  | succ k ih =>
      intro attempt ha store kw dispatched
      have h400 : 400 ≤ (oracle dispatched).status := by
        rcases classify_blocked_status _ (hb dispatched) with h | h <;> omega
      have hcond : (⟨true, lfs⟩ : SmartClientCfg).ai_optimize = true ∧
          400 ≤ (oracle dispatched).status := ⟨rfl, h400⟩
      have hretry : (suggest_retry_strategy (oracle dispatched)).retry = true ∧ attempt < 5 := by
        refine ⟨?_, by omega⟩
        rw [suggest_retry_blocked _ (hb dispatched)]
      rw [requestLoop.eq_def, if_pos hcond, dif_pos hretry]
      have hgoal := ih (attempt + 1) (by omega)
        (if (⟨true, lfs⟩ : SmartClientCfg).learn_from_success = true then
          learn_from_response store domain (oracle dispatched) (elapsedO dispatched)
        else store)
        (if (suggest_retry_strategy (oracle dispatched)).rotate_ua = some true then
          { kw with headers := dictSet kw.headers "User-Agent" (rotationUA (attempt + 1)) }
        else kw)
        (dispatched + 1)
      have hidx : dispatched + 1 + k = dispatched + (k + 1) := by omega
      rw [hidx] at hgoal
      exact hgoal

/-- C2 counterexample: with every response a plain 403 (classified
blocked, so the advisor recommends retry on every attempt), the AI-enabled
client performs 6 dispatch attempts, not 5: the attempt counter is a retry
counter, so the initial dispatch is followed by 5 retries. -/
theorem c2_counterexample_five_dispatches :
    (smartRequest ⟨true, true⟩ (fun _ => ⟨403, "denied"⟩) (fun _ => 1)
        "example.com" Store.init ⟨[], none⟩).dispatches = 6 ∧
    ((6 : Nat) = 5 → False) := by
  constructor
  · have hstrat : suggest_retry_strategy ⟨403, "denied"⟩ =
        { retry := true, delay := some 10, rotate_ua := some true,
          reason := some "IP or UA block" } := by decide
    simp [smartRequest, requestLoop, hstrat]
  · omega

/-- C2 (amended): whenever every response classifies blocked, the
AI-enabled request loop terminates after exactly 6 dispatch attempts (the
initial attempt plus 5 retries) and returns the last observed response,
the one of the sixth dispatch. -/
theorem c2_retry_bound_six (oracle : Nat → Response) (elapsedO : Nat → ℚ)
    (domain : String) (lfs : Bool) (store : Store) (kw : RequestKw)
    (hb : ∀ n, classify_response (oracle n) = .blocked) :
    (smartRequest ⟨true, lfs⟩ oracle elapsedO domain store kw).dispatches = 6 ∧
    (smartRequest ⟨true, lfs⟩ oracle elapsedO domain store kw).response = oracle 5 := by
  have h := requestLoop_all_blocked oracle hb elapsedO domain lfs 5 0 rfl
  unfold smartRequest
  exact ⟨(h _ _ 0).2, (h _ _ 0).1⟩

/-- C2 witness: a concrete always-blocked transport. -/
theorem c2_retry_bound_six_witness :
    (smartRequest ⟨true, false⟩ (fun _ => ⟨429, "slow down"⟩) (fun _ => 2)
        "api.example" Store.init ⟨[], some 1⟩).dispatches = 6 ∧
    (smartRequest ⟨true, false⟩ (fun _ => ⟨429, "slow down"⟩) (fun _ => 2)
        "api.example" Store.init ⟨[], some 1⟩).response = ⟨429, "slow down"⟩ :=
  c2_retry_bound_six (fun _ => ⟨429, "slow down"⟩) (fun _ => 2)
    "api.example" false Store.init ⟨[], some 1⟩
    (fun _ => by
      show classify_response ⟨429, "slow down"⟩ = Classification.blocked
      decide)

/-- C10: with ai_optimize = False, request performs exactly one dispatch,
returns that first response whatever its status, and leaves the keyword
arguments untouched: no advisory headers are merged, no default timeout is
attached and the User-Agent is never rotated. -/
theorem c10_no_optimize (oracle : Nat → Response) (elapsedO : Nat → ℚ)
    (domain : String) (lfs : Bool) (store : Store) (kw : RequestKw) :
    (smartRequest ⟨false, lfs⟩ oracle elapsedO domain store kw).response = oracle 0 ∧
    (smartRequest ⟨false, lfs⟩ oracle elapsedO domain store kw).dispatches = 1 ∧
    (smartRequest ⟨false, lfs⟩ oracle elapsedO domain store kw).kw = kw := by
  have hcond : ¬ ((⟨false, lfs⟩ : SmartClientCfg).ai_optimize = true ∧
      400 ≤ (oracle 0).status) := by
    intro h
    exact Bool.false_ne_true h.1
  unfold smartRequest
  rw [if_neg (by exact Bool.false_ne_true), requestLoop.eq_def, if_neg hcond]
  exact ⟨rfl, rfl, rfl⟩

end AiUrllib4
